import Mathlib

/-!
# Verification of the Interview-Prep A2A agent

A shallow embedding, in Lean 4, of the conversation state machine, the
task orchestrator, the async worker and the webhook-notification handler
of the interview-preparation agent (`app/interview_prep_agent.py`,
`app/conversation_state.py`, `app/interview_prep_executor.py`,
`app/push_notification_handler.py`), together with theorems settling the
specification claims about them.

Python strings are modelled as Lean `String`s; the few string primitives
the source uses (`in` substring test, `str.strip`, `str.lower`,
`str.split('\n')`, `str.replace`, `str.rstrip('/')`, `str.title`, the
regex `\ball\b`) are implemented below over `List Char` so that every
definition is executable and kernel-reducible.  The handlers are pure
Lean functions from `(query, state)` to `(turn outcome, new state)`,
mirroring the Python coroutines that yield exactly one item per turn and
mutate the shared `ConversationState` record in place.
-/

namespace InterviewPrep


/-! ## String primitives (models of the Python string operations used) -/

/-- Core of the Python substring test `pat in l`: true iff `pat` occurs
as a contiguous run inside `l`. -/
def charsContain (pat : List Char) : List Char → Bool
  | [] => pat.isEmpty
  | c :: rest => pat.isPrefixOf (c :: rest) || charsContain pat rest

/-- Model of Python `sub in s`. -/
def containsSubstr (s sub : String) : Bool :=
  charsContain sub.toList s.toList

/-- Drop leading and trailing whitespace; model of Python `str.strip()`
(on the ASCII whitespace the agent's inputs use). -/
def stripChars (l : List Char) : List Char :=
  ((l.dropWhile Char.isWhitespace).reverse.dropWhile Char.isWhitespace).reverse

/-- Model of Python `str.strip()`. -/
def pyStrip (s : String) : String := String.mk (stripChars s.toList)

/-- Model of Python `str.lower()` (ASCII case folding, which is what the
agent's keyword vocabularies exercise). -/
def pyLower (s : String) : String := String.mk (s.toList.map Char.toLower)

/-- Split a character list at every newline; model of Python
`str.split('\n')`. -/
def splitLines : List Char → List (List Char)
  | [] => [[]]
  | c :: rest =>
    let r := splitLines rest
    if c = '\n' then [] :: r
    else
      match r with
      | [] => [[c]]
      | h :: t => (c :: h) :: t

/-- The shared two-line idiom at the top of `_parse_domains`,
`_parse_skill_level` and `_parse_preference` (source lines 327-329,
414-416, 496-498):
`lines = [line.strip() for line in query.strip().split('\n') if line.strip()]`
followed by `user_input = lines[-1] if lines else query`. -/
def lastUserLine (query : String) : String :=
  let lines := ((splitLines (pyStrip query).toList).map
      (fun l => String.mk (stripChars l))).filter (fun l => l ≠ "")
  lines.getLast?.getD query

/-- Python regex word character (`\w`) on the ASCII inputs in scope:
letters, digits or underscore. -/
def isWordChar (c : Char) : Bool := c.isAlphanum || c = '_'

/-- Head of a character list is a word character (false for the empty
list, i.e. at end of string there is a word boundary). -/
def headIsWordChar : List Char → Bool
  | [] => false
  | c :: _ => isWordChar c

/-- Scanner for `re.search`: `hasWordAllAux prevIsWord l` is true iff `l`
contains an occurrence of `all` preceded (per `prevIsWord`) and followed
by a word boundary. -/
def hasWordAllAux (prevIsWord : Bool) : List Char → Bool
  | [] => false
  | c :: rest =>
    (if prevIsWord = false ∧ c = 'a' then
      match rest with
      | 'l' :: 'l' :: rest2 => !headIsWordChar rest2
      | _ => false
     else false)
    || hasWordAllAux (isWordChar c) rest

/-- Model of `re.search(r'\ball\b', s)` returning whether a match exists. -/
def hasWordAll (s : String) : Bool := hasWordAllAux false s.toList

/-- Model of Python `str.title()`: the first letter of every alphabetic
run is uppercased, the rest lowercased. -/
def pyTitleChars (prevAlpha : Bool) : List Char → List Char
  | [] => []
  | c :: rest =>
    if c.isAlpha then
      (if prevAlpha then c.toLower else c.toUpper) :: pyTitleChars true rest
    else c :: pyTitleChars false rest

/-- Model of Python `str.title()`. -/
def pyTitle (s : String) : String := String.mk (pyTitleChars false s.toList)

/-- One fuel step examines at least one character, so `l.length` fuel
suffices; model of Python `str.replace(pat, repl)` (all non-overlapping
occurrences, left to right). -/
def replaceAllFuel (pat repl : List Char) : Nat → List Char → List Char
  | 0, l => l
  | _ + 1, [] => []
  | fuel + 1, c :: rest =>
    if !pat.isEmpty && pat.isPrefixOf (c :: rest) then
      repl ++ replaceAllFuel pat repl fuel ((c :: rest).drop pat.length)
    else c :: replaceAllFuel pat repl fuel rest

/-- Model of Python `str.replace(pat, repl)`. -/
def pyReplace (s pat repl : String) : String :=
  String.mk (replaceAllFuel pat.toList repl.toList s.toList.length s.toList)

/-- Model of Python `str.rstrip('/')`: remove all trailing slashes. -/
def rstripSlashes (s : String) : String :=
  String.mk ((s.toList.reverse.dropWhile (· = '/')).reverse)

/-- The presentation form `domain.replace('_', ' ').title()` used in
the agent's messages. -/
def prettyToken (s : String) : String := pyTitle (pyReplace s "_" " ")

/-! ## The answer parsers (`interview_prep_agent.py` lines 325-365, 412-426, 494-510)

Domains, skill levels and preferences are carried as their Python string
values (`pydantic` later coerces them to the string-valued enums of
`conversation_state.py`, whose members have exactly these values). -/

/-- The full fixed domain set returned on an `all`/`everything` match
(source line 342). -/
def allDomains : List String :=
  ["algorithms", "system_design", "databases", "machine_learning",
   "behavioral", "frontend", "backend"]

/-- The `domain_keywords` table of `_parse_domains` (source lines 345-353),
in its Python insertion order. -/
def domainKeywords : List (String × List String) :=
  [("algorithms", ["algorithm", "algo", "dsa", "leetcode"]),
   ("system_design", ["system design", "systems design", "system architecture",
                      "distributed system"]),
   ("databases", ["database", "db", "sql"]),
   ("machine_learning", ["machine learning", "ml", "data science"]),
   ("behavioral", ["behavioral", "behavior", "soft skill"]),
   ("frontend", ["frontend", "front-end", "react", "javascript", "ui/ux"]),
   ("backend", ["backend", "back-end", "server", "microservice"])]

/-- Body of `_parse_domains` applied to the extracted user input line:
the `\ball\b` / `everything` check first, else the keyword scan, each
domain appended at most once in table order. -/
def parseDomainsLine (userInput : String) : List String :=
  let queryLower := pyLower userInput
  if hasWordAll queryLower || containsSubstr queryLower "everything" then
    allDomains
  else
    domainKeywords.foldl
      (fun domains dk =>
        if (dk.2.any (fun k => containsSubstr queryLower k)) && !domains.contains dk.1 then
          domains ++ [dk.1]
        else domains)
      []

/-- Model of `_parse_domains` (source lines 325-365). -/
def parseDomains (query : String) : List String :=
  parseDomainsLine (lastUserLine query)

/-- Body of `_parse_skill_level` on the extracted user input line
(source lines 417-426). -/
def parseSkillLevelLine (userInput : String) : Option String :=
  let queryLower := pyLower userInput
  if ["beginner", "new", "start"].any (fun w => containsSubstr queryLower w) then
    some "beginner"
  else if ["intermediate", "some experience", "mid"].any (fun w => containsSubstr queryLower w) then
    some "intermediate"
  else if ["advanced", "expert", "experienced"].any (fun w => containsSubstr queryLower w) then
    some "advanced"
  else none

/-- Model of `_parse_skill_level` (source lines 412-426). -/
def parseSkillLevel (query : String) : Option String :=
  parseSkillLevelLine (lastUserLine query)

/-- Body of `_parse_preference` on the extracted user input line
(source lines 499-510). -/
def parsePreferenceLine (userInput : String) : Option String :=
  let queryLower := pyLower userInput
  if ["theory", "concept", "understanding"].any (fun w => containsSubstr queryLower w) then
    some "theory_heavy"
  else if ["coding", "practice", "hands-on"].any (fun w => containsSubstr queryLower w) then
    some "coding_heavy"
  else if ["balanced", "mix", "both"].any (fun w => containsSubstr queryLower w) then
    some "balanced"
  else if ["project", "build", "real"].any (fun w => containsSubstr queryLower w) then
    some "project_based"
  else none

/-- Model of `_parse_preference` (source lines 494-510). -/
def parsePreference (query : String) : Option String :=
  parsePreferenceLine (lastUserLine query)

/-! ## Data model (`conversation_state.py`) -/

/-- The `ConversationPhase` enum (`conversation_state.py` lines 6-18).
`processingConfirmation` is declared in the source enum but never
assigned anywhere in the code base; it is kept here for fidelity and
proved unreachable below. -/
inductive ConversationPhase
  | initial
  | domainSelection
  | levelAssessment
  | preferenceGathering
  | readyToProcess
  | processingConfirmation
  | asyncProcessing
  | planDelivered
  | refinementInput
  | refinementProcessing
  | completed
deriving DecidableEq, Repr

/-- The `UserInputs` record (`conversation_state.py` lines 47-55).  Domains, skill
level and preference carry the enums' string values, exactly the values
produced by the parsers and coerced by pydantic. -/
structure UserInputs where
  domains : List String := []
  skill_level : Option String := none
  preference : Option String := none
  target_role : Option String := none
  timeline : Option String := none
  specific_companies : List String := []
  additional_requirements : List String := []
deriving DecidableEq, Repr

/-- One entry of `messages_history` as appended by
`ConversationState.add_message` (`conversation_state.py` lines 72-78). -/
structure HistoryMessage where
  role : String
  content : String
  phase : ConversationPhase
deriving DecidableEq, Repr

/-- The `ConversationState` record (`conversation_state.py` lines 58-70).  The
`research_data : Dict[str, Any]` field is omitted: it is never read or
written by any conversation handler and its `Any` payloads have no
translation; every other field is carried. -/
structure ConversationState where
  phase : ConversationPhase := .initial
  user_inputs : UserInputs := {}
  messages_history : List HistoryMessage := []
  processing_steps : List String := []
  current_processing_step : Option String := none
  plan_generated : Bool := false
  awaiting_processing_confirmation : Bool := false
  plan_content : Option String := none
  refinement_requests : List String := []
  satisfaction_confirmed : Bool := false
deriving DecidableEq, Repr

/-- Model of `ConversationState.add_message` (`conversation_state.py` lines 72-78):
append `{role, content, phase}` with the state's current phase. -/
def ConversationState.add_message (s : ConversationState) (role content : String) :
    ConversationState :=
  { s with messages_history := s.messages_history ++ [⟨role, content, s.phase⟩] }

/-- Model of `ConversationState.advance_phase` (`conversation_state.py` lines 80-82). -/
def ConversationState.advance_phase (s : ConversationState) (newPhase : ConversationPhase) :
    ConversationState :=
  { s with phase := newPhase }

/-- Model of `ConversationState.is_input_complete` (`conversation_state.py` lines 84-90). -/
def ConversationState.is_input_complete (s : ConversationState) : Bool :=
  decide (0 < s.user_inputs.domains.length) &&
  s.user_inputs.skill_level.isSome &&
  s.user_inputs.preference.isSome

/-- The fresh state created on first use of a context id
(`_get_conversation_state`, agent lines 205-215): all defaults. -/
def initialState : ConversationState := {}

/-! ## Turn outcomes

A handler's single yielded dictionary (`is_task_complete`,
`require_user_input`, `content`, `phase`, and the optional trigger
flags, which default to absent/false). -/

structure TurnOutcome where
  is_task_complete : Bool
  require_user_input : Bool
  content : String
  phase : ConversationPhase
  trigger_async_processing : Bool := false
  trigger_refinement_processing : Bool := false
deriving DecidableEq, Repr

/-! ## Handler vocabularies (the exact keyword lists of the source) -/

/-- Intent keywords of `_handle_initial_phase` (agent line 232). -/
def intentKeywords : List String := ["interview", "prepare", "job", "coding"]

/-- Confirmation vocabulary of `_handle_ready_to_process` (agent line 521)
and `_should_start_async_processing` (executor line 270). -/
def confirmKeywords : List String := ["yes", "start", "create", "begin", "proceed"]

/-- Satisfaction vocabulary of `_handle_plan_delivered` (agent line 565). -/
def satisfactionKeywords : List String :=
  ["satisfied", "good", "perfect", "thanks", "done", "complete"]

/-- Refinement vocabulary of `_handle_plan_delivered` (agent line 584). -/
def refinementKeywords : List String :=
  ["adjust", "change", "modify", "refine", "update", "improve"]

/-- Model of `any(keyword in query.lower() for keyword in kws)`. -/
def anyKeyword (kws : List String) (query : String) : Bool :=
  kws.any (fun k => containsSubstr (pyLower query) k)

/-! ## Message texts

Verbatim texts of the handlers' yielded `content` strings and recorded
agent history messages (the multi-byte sequences reproduce the bytes of
the source file as committed). -/

def domainMenuText : String := "Great! I\x27m here to help you prepare for interviews. Let me gather some information to create a personalized preparation plan.\n\nFirst, which interview domains would you like to focus on? You can choose multiple:\n\n- **Algorithms** - Data structures, algorithms, coding problems\n- **System Design** - Scalable system architecture, distributed systems\n- **Databases** - SQL, NoSQL, database design\n- **Machine Learning** - ML algorithms, data science concepts\n- **Behavioral** - Soft skills, situational questions\n- **Frontend** - JavaScript, React, UI/UX\n- **Backend** - APIs, microservices, server architecture\n\nPlease tell me which domains interest you, or type \"all\" if you want comprehensive preparation."

def welcomeText : String := "Hello! I\x27m your Interview Preparation Coach. I help professionals prepare for technical interviews with personalized study plans and resources.\n\nI can help you with:\n- Algorithm and coding interview prep\n- System design interview guidance\n- Domain-specific preparation (ML, databases, etc.)\n- Company-specific interview insights\n- Personalized study schedules\n\nWould you like to start preparing for interviews? Just say \"I want to prepare for interviews\" or tell me about your specific goals!"

/-- The f-string of agent lines 296-304 with `domain_list` interpolated. -/
def domainSelectedText (domainList : String) : String :=
  "Perfect! You\x27ve selected: **" ++ domainList ++ "**\n\nNow, what\x27s your current skill level in these areas?\n\n- **Beginner** - New to the field, learning fundamentals\n- **Intermediate** - Some experience, comfortable with basics\n- **Advanced** - Experienced, looking to master complex topics\n\nPlease tell me your skill level."

def domainRepromptText : String := "I didn\x27t quite catch which domains you\x27d like to focus on. Please choose from:\n\n- **Algorithms** (or \"algo\")\n- **System Design** (or \"systems\")\n- **Databases** (or \"db\")\n- **Machine Learning** (or \"ml\")\n- **Behavioral**\n- **Frontend**\n- **Backend**\n\nYou can say something like \"I want to focus on algorithms and system design\" or just \"algorithms, databases\"."

/-- The f-string of agent lines 386-395 with the titled level interpolated. -/
def levelNotedText (level : String) : String :=
  "Great! I\x27ve noted your skill level as **" ++ prettyToken level ++ "**.\n\nNow, what\x27s your learning preference?\n\n- **Theory-Heavy** - Focus on concepts, principles, and understanding\n- **Coding-Heavy** - Emphasis on practice problems and hands-on coding\n- **Balanced** - Mix of theory and practical exercises\n- **Project-Based** - Learn through building real projects\n\nWhat approach works best for you?"

def levelRepromptText : String := "Please let me know your skill level:\n\n- **Beginner** - New to these topics\n- **Intermediate** - Some experience\n- **Advanced** - Experienced professional\n\nJust say \"beginner\", \"intermediate\", or \"advanced\"."

/-- The f-string of agent lines 454-468 (summary and confirmation
request), with `domains_str`, the titled skill level and the titled
preference interpolated. -/
def readySummaryText (domainsStr skillTitled prefTitled : String) : String :=
  "Perfect! Here\x27s what I\x27ve gathered:\n\n**Domains:** " ++ domainsStr ++ "\n**Skill Level:** " ++ skillTitled ++ "\n**Learning Style:** " ++ prefTitled ++ "\n\nI\x27m ready to create your personalized interview preparation plan. This will involve:\n- Researching latest interview trends and resources\n- Creating a customized study schedule\n- Finding domain-specific practice materials\n- Generating a comprehensive roadmap\n\n**This process takes 2-3 minutes. Would you like me to start creating your plan?**\n\nReply with **\"Yes, create my plan\"** to begin processing."

def stillNeedInfoText : String :=
  "I still need some more information. Could you please provide your learning preference?"

def preferenceRepromptText : String := "Please choose your learning preference:\n\n- **Theory-Heavy** - Focus on concepts and understanding\n- **Coding-Heavy** - Emphasis on practice and coding\n- **Balanced** - Mix of theory and practice\n- **Project-Based** - Learn through building projects\n\nJust say something like \"I prefer coding-heavy\" or \"balanced approach\"."

def processingRequestText : String := "Processing your interview preparation request..."

def confirmRepromptText : String :=
  "Please confirm if you want me to create your preparation plan by saying **\"Yes, create my plan\"**."

def asyncProcessingText : String :=
  "I\x27m currently processing your request. Please wait for the results via push notification."

def planCompleteText : String := "Excellent! Your interview preparation plan is complete.\n\n**Next Steps:**\n1. Save your preparation plan for reference\n2. Start with Week 1 activities\n3. Track your progress regularly\n4. Come back anytime for plan updates\n\nGood luck with your interview preparation!"

def refineOfferText : String := "I\x27d be happy to refine your preparation plan!\n\nWhat would you like me to adjust? For example:\n- Add more focus on specific domains\n- Change the timeline or intensity\n- Include specific companies or roles\n- Modify learning resources or style\n- Any other specific requirements\n\nPlease describe what you\x27d like me to change."

def satisfactionRepromptText : String := "Are you satisfied with your preparation plan, or would you like me to make any adjustments?\n\nYou can say:\n- **\"I\x27m satisfied\"** or **\"This looks good\"** to complete\n- **\"I want to adjust...\"** to request changes"

def refinementAckText : String :=
  "I understand your refinement request. Processing your adjustments..."

def refinementProcessingText : String :=
  "I\x27m processing your refinement request. Please wait for the updated plan."

def completedText : String :=
  "Your preparation plan has been completed! Is there anything specific you\x27d like me to adjust or explain further?"

/-! ## The phase handlers (`interview_prep_agent.py`)

Each `_handle_*` coroutine yields exactly one dictionary and mutates the
state record; it is modelled as a pure function
`(query, state) → (TurnOutcome, ConversationState)`. -/

/-- Model of `_handle_initial_phase` (agent lines 222-269). -/
def handleInitialPhase (query : String) (s : ConversationState) :
    TurnOutcome × ConversationState :=
  if anyKeyword intentKeywords query then
    let s1 := (s.advance_phase .domainSelection).add_message "agent"
      "Great! I\x27ll help you prepare for interviews."
    ({ is_task_complete := false, require_user_input := true,
       content := domainMenuText, phase := .domainSelection }, s1)
  else
    ({ is_task_complete := false, require_user_input := true,
       content := welcomeText, phase := .initial }, s)

/-- Model of `_handle_domain_selection` (agent lines 271-323). -/
def handleDomainSelection (query : String) (s : ConversationState) :
    TurnOutcome × ConversationState :=
  let domains := parseDomains query
  if !domains.isEmpty then
    let s1 := { s with user_inputs := { s.user_inputs with domains := domains } }
    let s2 := (s1.advance_phase .levelAssessment).add_message "agent"
      ("Selected domains: " ++ String.intercalate ", " domains)
    let domainList := String.intercalate ", " (domains.map prettyToken)
    ({ is_task_complete := false, require_user_input := true,
       content := domainSelectedText domainList, phase := .levelAssessment }, s2)
  else
    ({ is_task_complete := false, require_user_input := true,
       content := domainRepromptText, phase := .domainSelection }, s)

/-- Model of `_handle_level_assessment` (agent lines 367-410). -/
def handleLevelAssessment (query : String) (s : ConversationState) :
    TurnOutcome × ConversationState :=
  match parseSkillLevel query with
  | some level =>
    let s1 := { s with user_inputs := { s.user_inputs with skill_level := some level } }
    let s2 := (s1.advance_phase .preferenceGathering).add_message "agent"
      ("Skill level: " ++ level)
    ({ is_task_complete := false, require_user_input := true,
       content := levelNotedText level, phase := .preferenceGathering }, s2)
  | none =>
    ({ is_task_complete := false, require_user_input := true,
       content := levelRepromptText, phase := .levelAssessment }, s)

/-- Model of `_handle_preference_gathering` (agent lines 428-492). -/
def handlePreferenceGathering (query : String) (s : ConversationState) :
    TurnOutcome × ConversationState :=
  match parsePreference query with
  | some preference =>
    let s1 := { s with user_inputs := { s.user_inputs with preference := some preference } }
    let s2 := s1.add_message "agent" ("Preference: " ++ preference)
    if s2.is_input_complete then
      let s3 := { s2.advance_phase .readyToProcess with
                    awaiting_processing_confirmation := true }
      let domainsStr :=
        String.intercalate ", " (s3.user_inputs.domains.map prettyToken)
      ({ is_task_complete := false, require_user_input := true,
         content := readySummaryText domainsStr
           (prettyToken ((s3.user_inputs.skill_level).getD ""))
           (prettyToken preference),
         phase := .readyToProcess }, s3)
    else
      ({ is_task_complete := false, require_user_input := true,
         content := stillNeedInfoText, phase := .preferenceGathering }, s2)
  | none =>
    ({ is_task_complete := false, require_user_input := true,
       content := preferenceRepromptText, phase := .preferenceGathering }, s)

/-- Model of `_handle_ready_to_process` (agent lines 512-538): on a confirmation
match the phase is deliberately not advanced (the executor owns the
async transition); only the pending-confirmation flag is cleared and the
`trigger_async_processing` flag is raised on the outcome. -/
def handleReadyToProcess (query : String) (s : ConversationState) :
    TurnOutcome × ConversationState :=
  if anyKeyword confirmKeywords query then
    ({ is_task_complete := false, require_user_input := false,
       content := processingRequestText, phase := .readyToProcess,
       trigger_async_processing := true },
     { s with awaiting_processing_confirmation := false })
  else
    ({ is_task_complete := false, require_user_input := true,
       content := confirmRepromptText, phase := .readyToProcess }, s)

/-- Model of `_handle_async_processing` (agent lines 540-554). -/
def handleAsyncProcessing (_query : String) (s : ConversationState) :
    TurnOutcome × ConversationState :=
  ({ is_task_complete := false, require_user_input := false,
     content := asyncProcessingText, phase := .asyncProcessing }, s)

/-- Model of `_handle_plan_delivered` (agent lines 556-612). -/
def handlePlanDelivered (query : String) (s : ConversationState) :
    TurnOutcome × ConversationState :=
  if anyKeyword satisfactionKeywords query then
    let s1 := { s.advance_phase .completed with satisfaction_confirmed := true }
    ({ is_task_complete := true, require_user_input := false,
       content := planCompleteText, phase := .completed }, s1)
  else if anyKeyword refinementKeywords query then
    let s1 := s.advance_phase .refinementInput
    ({ is_task_complete := false, require_user_input := true,
       content := refineOfferText, phase := .refinementInput }, s1)
  else
    ({ is_task_complete := false, require_user_input := true,
       content := satisfactionRepromptText, phase := .planDelivered }, s)

/-- Model of `_handle_refinement_input` (agent lines 614-633): the raw utterance
is stored verbatim and the phase advances unconditionally. -/
def handleRefinementInput (query : String) (s : ConversationState) :
    TurnOutcome × ConversationState :=
  let s1 := { s with refinement_requests := s.refinement_requests ++ [query] }
  let s2 := s1.advance_phase .refinementProcessing
  ({ is_task_complete := false, require_user_input := false,
     content := refinementAckText, phase := .refinementProcessing,
     trigger_refinement_processing := true }, s2)

/-- Model of `_handle_refinement_processing` (agent lines 635-649). -/
def handleRefinementProcessing (_query : String) (s : ConversationState) :
    TurnOutcome × ConversationState :=
  ({ is_task_complete := false, require_user_input := false,
     content := refinementProcessingText, phase := .refinementProcessing }, s)

/-- Model of `_handle_completed_phase` (agent lines 652-666). -/
def handleCompletedPhase (_query : String) (s : ConversationState) :
    TurnOutcome × ConversationState :=
  ({ is_task_complete := true, require_user_input := false,
     content := completedText, phase := .completed }, s)

/-! ## One turn of `stream` (agent lines 134-203)

`stream` records the user message, dispatches on the current phase and
saves the mutated state.  The `ConversationPhase.processingConfirmation`
member has no dispatch branch in the source (the `if/elif` chain of
lines 153-191 skips it), so no item is yielded for it: the outcome is
`none` and the state keeps only the recorded user message. -/

def streamStep (query : String) (s : ConversationState) :
    Option TurnOutcome × ConversationState :=
  let s0 := s.add_message "user" query
  match s0.phase with
  | .initial =>
    let r := handleInitialPhase query s0; (some r.1, r.2)
  | .domainSelection =>
    let r := handleDomainSelection query s0; (some r.1, r.2)
  | .levelAssessment =>
    let r := handleLevelAssessment query s0; (some r.1, r.2)
  | .preferenceGathering =>
    let r := handlePreferenceGathering query s0; (some r.1, r.2)
  | .readyToProcess =>
    let r := handleReadyToProcess query s0; (some r.1, r.2)
  | .processingConfirmation => (none, s0)
  | .asyncProcessing =>
    let r := handleAsyncProcessing query s0; (some r.1, r.2)
  | .planDelivered =>
    let r := handlePlanDelivered query s0; (some r.1, r.2)
  | .refinementInput =>
    let r := handleRefinementInput query s0; (some r.1, r.2)
  | .refinementProcessing =>
    let r := handleRefinementProcessing query s0; (some r.1, r.2)
  | .completed =>
    let r := handleCompletedPhase query s0; (some r.1, r.2)

/-- The turn outcome produced by one call of `stream`. -/
def streamOutcome (query : String) (s : ConversationState) : Option TurnOutcome :=
  (streamStep query s).1

/-- The stored conversation state after one call of `stream`. -/
def streamNext (query : String) (s : ConversationState) : ConversationState :=
  (streamStep query s).2

/-- Several turns on one context id, in sequence. -/
def runConversation (queries : List String) (s : ConversationState) : ConversationState :=
  queries.foldl (fun st q => streamNext q st) s

/-- The four utterances of the end-to-end collection scenario. -/
def scenarioQueries : List String :=
  ["I want to prepare for interviews", "algorithms and system design",
   "intermediate", "balanced"]

/-! ## Reachable conversation states

Besides the per-turn mutations of `stream`, exactly two places outside the
controller write a context's ConversationState: the async worker stores
the finished plan and advances to PLAN_DELIVERED
(`interview_prep_executor.py` lines 340-344), and the refined-plan
generator stores the refined plan text (`interview_prep_executor.py`
lines 480-482).  `Reaches` closes the fresh state under all three. -/

/-- Executor lines 340-344: `plan_content`/`plan_generated` are written
and the phase advances to PLAN_DELIVERED before the terminal event. -/
def asyncPlanDelivered (plan : String) (s : ConversationState) : ConversationState :=
  { s with plan_content := some plan, plan_generated := true, phase := .planDelivered }

/-- Executor lines 480-482: `_generate_refined_plan` stores the refined
plan text (and nothing else) in the conversation state. -/
def storeRefinedPlan (plan : String) (s : ConversationState) : ConversationState :=
  { s with plan_content := some plan }

/-- The conversation states reachable for a context id: the fresh state,
closed under conversation turns and the two executor write-backs. -/
inductive Reaches : ConversationState → Prop
  | init : Reaches initialState
  | turn (q : String) {s : ConversationState} : Reaches s → Reaches (streamNext q s)
  | asyncDone (plan : String) {s : ConversationState} :
      Reaches s → Reaches (asyncPlanDelivered plan s)
  | refinedStored (plan : String) {s : ConversationState} :
      Reaches s → Reaches (storeRefinedPlan plan s)

/-- The inductive invariant of the phase machine: the dead enum member
PROCESSING_CONFIRMATION is never current, a LEVEL_ASSESSMENT state
already has domains, and a PREFERENCE_GATHERING state has domains and a
skill level. -/
def PhaseInv (s : ConversationState) : Prop :=
  s.phase ≠ .processingConfirmation ∧
  (s.phase = .levelAssessment → s.user_inputs.domains ≠ []) ∧
  (s.phase = .preferenceGathering →
    s.user_inputs.domains ≠ [] ∧ s.user_inputs.skill_level.isSome = true)

/-! ## The task orchestrator (`interview_prep_executor.py`)

`execute` (lines 51-101) runs one turn: it accepts the push-notification
configuration only when one was supplied, the handler imported and
push notifications are enabled; when the turn should start async
processing *and* such a configuration is present it hands off to the
push-notification path, otherwise it performs standard processing.  The
externally-computed refined plan text (web research plus templating, out
of the embedded core) enters `_handle_standard_processing` as the
`refinedPlanText` parameter. -/

/-- The `a2a` task states used by the executor. -/
inductive A2ATaskState
  | submitted
  | working
  | input_required
  | completed
  | failed
deriving DecidableEq, Repr

/-- One event enqueued by the executor towards the caller: a status
update (with `final` flag), an added artifact, or `updater.complete()`. -/
inductive ExecEvent
  | status (state : A2ATaskState) (message : String) (final : Bool)
  | artifact (name text : String)
  | taskComplete
deriving DecidableEq, Repr

/-- The acknowledgment text of executor lines 127-132. -/
def submittedAckText : String :=
  "Your interview preparation request has been submitted for processing. You\x27ll receive updates via push notifications."

/-- Executor line 144. -/
def refinementWorkingText : String := "🔧 Processing your refinement request..."

/-- Model of `_should_start_async_processing` (executor lines 256-282): true only
in READY_TO_PROCESS on a confirmation-vocabulary match, or in
REFINEMENT_PROCESSING. -/
def shouldStartAsyncProcessing (s : ConversationState) (query : String) : Bool :=
  (decide (s.phase = .readyToProcess) && anyKeyword confirmKeywords query) ||
  decide (s.phase = .refinementProcessing)

/-- Model of `_handle_standard_processing` (executor lines 103-195) on the single
item yielded by one `stream` turn.  A `trigger_async_processing` item
ends the turn with a *final* `submitted` status and no further work
("let async mode take over", line 134); a `trigger_refinement_processing`
item produces a working update, the refined-plan artifact and completion
(the refined text is also stored into the state, executor lines 480-482);
otherwise the item's own flags select a working, input-required or
completed response.  (`trigger_push_notification` is also tested at line
121 but no stream item ever carries it.) -/
def handleStandardProcessing (refinedPlanText query : String) (s : ConversationState) :
    List ExecEvent × ConversationState :=
  match streamStep query s with
  | (none, s1) => ([], s1)
  | (some item, s1) =>
    if item.trigger_async_processing then
      ([.status .submitted submittedAckText true], s1)
    else if item.trigger_refinement_processing then
      ([.status .working refinementWorkingText false,
        .artifact "refined_interview_preparation_plan" refinedPlanText,
        .taskComplete],
       storeRefinedPlan refinedPlanText s1)
    else if !item.is_task_complete && !item.require_user_input then
      ([.status .working item.content false], s1)
    else if item.require_user_input then
      ([.status .input_required item.content true], s1)
    else
      ([.artifact "interview_preparation_result" item.content, .taskComplete], s1)

/-- The `PushNotificationConfig` payload as consumed by the handler: the callback
url, the optional opaque token and the requested authentication
schemes. -/
structure CallbackConfig where
  url : String
  token : Option String := none
  schemes : List String := []
deriving DecidableEq, Repr

/-- The executor's immediate response: the events of standard
processing, or the handoff to the push-notification path. -/
inductive ExecResponse
  | standard (events : List ExecEvent)
  | asyncPush
deriving DecidableEq, Repr

/-- Model of `execute` (executor lines 51-101): the async path is taken only when
`_should_start_async_processing` holds *and* a push-notification
configuration is present (with the handler available and enabled);
otherwise the request falls through to `_handle_standard_processing`. -/
def executeModel (pushConfig : Option CallbackConfig) (handlerEnabled : Bool)
    (refinedPlanText query : String) (s : ConversationState) :
    ExecResponse × ConversationState :=
  let hasPush := pushConfig.isSome && handlerEnabled
  if shouldStartAsyncProcessing s query && hasPush then
    (.asyncPush, s)
  else
    let r := handleStandardProcessing refinedPlanText query s
    (.standard r.1, r.2)

/-! ## The webhook notification handler (`push_notification_handler.py`) -/

/-- Model of `_resolve_callback_url` (lines 117-140): when the URL contains the
`BASE_API_URL/` pattern and the `BASE_API_URL` environment variable is
set, every occurrence of the placeholder is replaced by the base address
with trailing slashes stripped; when the variable is unset a warning is
logged and the URL is returned unchanged. -/
def resolveCallbackUrl (baseApiUrl : Option String) (callbackUrl : String) : String :=
  if containsSubstr callbackUrl "BASE_API_URL/" then
    match baseApiUrl with
    | some base => pyReplace callbackUrl "BASE_API_URL" (rstripSlashes base)
    | none => callbackUrl
  else callbackUrl

/-- Split a character list at the first occurrence of `sep`, returning
the parts before and after it, or `none` when `sep` does not occur. -/
def splitFirstAt (sep : List Char) : List Char → Option (List Char × List Char)
  | [] => none
  | c :: rest =>
    if sep.isPrefixOf (c :: rest) then some ([], (c :: rest).drop sep.length)
    else
      match splitFirstAt sep rest with
      | some pr => some (c :: pr.1, pr.2)
      | none => none

/-- The hostname part of what follows `://`: the netloc (up to the first
`/`, `?` or `#`), with any userinfo before the last `@` and any port
after `:` removed; model of `urlparse(url).hostname` presence. -/
def hostOf (rest : List Char) : List Char :=
  let netloc := rest.takeWhile (fun c => !(c = '/' || c = '?' || c = '#'))
  let afterUserinfo :=
    if netloc.contains '@' then (netloc.reverse.takeWhile (· ≠ '@')).reverse
    else netloc
  afterUserinfo.takeWhile (· ≠ ':')

/-- Model of `_validate_callback_url` (lines 142-160): the parsed scheme must be
`http` or `https` and a hostname must be present.  `urlparse` is
modelled by splitting at the first `://`: a URL without `://` yields no
http/https scheme and is rejected, exactly as `urlparse` rejects it
(no scheme, or a scheme with an empty netloc). -/
def validateCallbackUrl (url : String) : Bool :=
  match splitFirstAt "://".toList url.toList with
  | none => false
  | some pr =>
    let scheme := pyLower (String.mk pr.1)
    (scheme = "http" || scheme = "https") && !(hostOf pr.2).isEmpty

/-- The outcome of `handle_push_notification_request` (lines 57-115) up
to the point where the background delivery task is spawned. -/
inductive DeliveryDecision
  | disabled
  | noUrl
  | rejectedInvalidUrl (resolved : String)
  | dialed (resolved : String)
deriving DecidableEq, Repr

/-- Model of `handle_push_notification_request` (lines 57-115): disabled handler
and missing URL abort first; then the URL is resolved and validated, an
invalid resolution aborts delivery, and otherwise the resolved URL is
the one dialed by the spawned `_process_async_interview_prep_request`. -/
def handlePushNotificationRequest (enabled : Bool) (baseApiUrl : Option String)
    (callbackUrl : String) : DeliveryDecision :=
  if !enabled then .disabled
  else if callbackUrl = "" then .noUrl
  else
    let resolved := resolveCallbackUrl baseApiUrl callbackUrl
    if !validateCallbackUrl resolved then .rejectedInvalidUrl resolved
    else .dialed resolved

/-! ## The async worker (`_async_research_and_generate`, executor lines 284-371) -/

/-- One item yielded by the async generator (only these three keys are
read by the push-notification consumer). -/
structure WorkerEvent where
  is_task_complete : Bool
  require_user_input : Bool
  content : String
deriving DecidableEq, Repr

/-- The three progress contents of executor lines 296-338, in order. -/
def workerProgressContents : List String :=
  ["🔍 Collecting latest interview resources and trends...",
   "📋 Generating personalized study plan based on your preferences...",
   "✨ Finalizing your interview preparation roadmap..."]

/-- The terminal success content (executor lines 350-362) around the
rendered plan. -/
def workerFinalContent (planContent : String) : String :=
  "🎉 **Your Interview Preparation Plan is Ready!**\n\n" ++ planContent ++ "\n\n---\n\n**Are you satisfied with this preparation plan, or would you like me to make any adjustments?**\n\nYou can say:\n- **\"I\x27m satisfied\"** or **\"This looks perfect!\"** to complete\n- **\"I want to adjust...\"** to request specific changes\n\nWhat would you like to do next?"

/-- The terminal error content of the generator's `except` clause
(executor lines 365-371). -/
def workerErrorContent (errMsg : String) : String :=
  "I encountered an error while creating your plan: " ++ errMsg ++ ". Please try again."

/-- The event sequence of one `_async_research_and_generate` run.  The
whole generator body is wrapped in `try/except`; `fault = none` is the
fault-free run (three progress yields, then, after the state write-back
modelled by `asyncPlanDelivered`, the terminal satisfaction-checkpoint
yield with `require_user_input = true`), while `fault = some k` means an
unhandled exception is raised in stage `k` — during the state lookup
before the first yield (`k = 0`), the research step (`k = 1`), the plan
generation (`k = 2`) or the finalization/write-back (`k = 3`) — so the
`except` clause yields the single terminal error event after the `k`
progress events already emitted. -/
def asyncResearchAndGenerate (planContent errMsg : String) (fault : Option (Fin 4)) :
    List WorkerEvent :=
  let progress := workerProgressContents.map (fun c => WorkerEvent.mk false false c)
  match fault with
  | none => progress ++ [⟨false, true, workerFinalContent planContent⟩]
  | some k => progress.take k.val ++ [⟨false, true, workerErrorContent errMsg⟩]

/-- An event that ends a run on the receiving side: `complete = true` or
`requireInput = true`. -/
def WorkerEvent.isTerminal (e : WorkerEvent) : Bool :=
  e.is_task_complete || e.require_user_input

/-- The per-phase "no vocabulary match" condition, read off the failure
branch of each phase handler.  REFINEMENT_INPUT accepts every utterance
verbatim (agent lines 614-633), so its parse never fails; the three
processing/terminal phases carry no parser at all. -/
def parseFails (ph : ConversationPhase) (q : String) : Bool :=
  match ph with
  | .initial => !anyKeyword intentKeywords q
  | .domainSelection => (parseDomains q).isEmpty
  | .levelAssessment => (parseSkillLevel q).isNone
  | .preferenceGathering => (parsePreference q).isNone
  | .readyToProcess => !anyKeyword confirmKeywords q
  | .planDelivered =>
      !anyKeyword satisfactionKeywords q && !anyKeyword refinementKeywords q
  | _ => false

/-! # Theorems

Everything above embeds the source; everything below proves properties
of those definitions: first the small projection lemmas and the
reachability invariant, then the claim theorems. -/

@[simp] theorem add_message_phase (s : ConversationState) (r c : String) :
    (s.add_message r c).phase = s.phase := rfl

@[simp] theorem add_message_user_inputs (s : ConversationState) (r c : String) :
    (s.add_message r c).user_inputs = s.user_inputs := rfl

@[simp] theorem advance_phase_phase (s : ConversationState) (p : ConversationPhase) :
    (s.advance_phase p).phase = p := rfl

@[simp] theorem advance_phase_user_inputs (s : ConversationState) (p : ConversationPhase) :
    (s.advance_phase p).user_inputs = s.user_inputs := rfl

theorem phaseInv_init : PhaseInv initialState := by
  refine ⟨by decide, ?_, ?_⟩ <;> intro h <;> simp [initialState] at h

theorem phaseInv_step (q : String) (s : ConversationState) (h : PhaseInv s) :
    PhaseInv (streamNext q s) := by
  obtain ⟨hpc, hlv, hpg⟩ := h
  have h0 : (s.add_message "user" q).phase = s.phase := rfl
  unfold streamNext streamStep
  simp only []
  rw [h0]
  cases hp : s.phase
  case processingConfirmation => exact absurd hp hpc
  case initial =>
    by_cases hc : anyKeyword intentKeywords q <;>
      simp [handleInitialPhase, hc, PhaseInv, hp]
  case domainSelection =>
    by_cases hc : (parseDomains q).isEmpty
    · simp [handleDomainSelection, hc, PhaseInv, hp]
    · have hne : parseDomains q ≠ [] := by simpa [List.isEmpty_iff] using hc
      simp [handleDomainSelection, hc, PhaseInv, hp, hne]
  case levelAssessment =>
    cases hc : parseSkillLevel q <;>
      simp [handleLevelAssessment, hc, PhaseInv, hp, hlv hp]
  case preferenceGathering =>
    obtain ⟨hdom, hskill⟩ := hpg hp
    cases hc : parsePreference q
    · simp [handlePreferenceGathering, hc, PhaseInv, hp, hdom, hskill]
    · simp only [handlePreferenceGathering, hc]
      split
      · simp [PhaseInv, hp]
      · simp [PhaseInv, hp, hdom, hskill]
  case readyToProcess =>
    by_cases hc : anyKeyword confirmKeywords q <;>
      simp [handleReadyToProcess, hc, PhaseInv, hp]
  case asyncProcessing =>
    simp [handleAsyncProcessing, PhaseInv, hp]
  case planDelivered =>
    by_cases hc1 : anyKeyword satisfactionKeywords q
    · simp [handlePlanDelivered, hc1, PhaseInv, hp]
    · by_cases hc2 : anyKeyword refinementKeywords q <;>
        simp [handlePlanDelivered, hc1, hc2, PhaseInv, hp]
  case refinementInput =>
    simp [handleRefinementInput, PhaseInv, hp]
  case refinementProcessing =>
    simp [handleRefinementProcessing, PhaseInv, hp]
  case completed =>
    simp [handleCompletedPhase, PhaseInv, hp]

theorem reaches_phaseInv {s : ConversationState} (h : Reaches s) : PhaseInv s := by
  induction h with
  | init => exact phaseInv_init
  | turn q _ ih => exact phaseInv_step q _ ih
  | asyncDone plan _ ih =>
    simp [PhaseInv, asyncPlanDelivered]
  | refinedStored plan _ ih =>
    obtain ⟨hpc, hlv, hpg⟩ := ih
    exact ⟨hpc, hlv, hpg⟩

/-! ## Claim theorems: the parsers and the conversation controller -/

/-- Claim C7: Sending the utterances "I want to prepare for interviews",
"algorithms and system design", "intermediate", "balanced" in sequence on
one fresh context drives the phase INITIAL → DOMAIN_SELECTION →
LEVEL_ASSESSMENT → PREFERENCE_GATHERING → READY_TO_PROCESS and leaves
`collectedInputs` with domains `[algorithms, system_design]`, skill level
`intermediate`, preference `balanced`, with the pending-confirmation flag
set true on the final transition. -/
theorem c7_scenario_reaches_ready_to_process :
    initialState.phase = .initial ∧
    (runConversation (scenarioQueries.take 1) initialState).phase = .domainSelection ∧
    (runConversation (scenarioQueries.take 2) initialState).phase = .levelAssessment ∧
    (runConversation (scenarioQueries.take 3) initialState).phase = .preferenceGathering ∧
    (runConversation scenarioQueries initialState).phase = .readyToProcess ∧
    (runConversation scenarioQueries initialState).user_inputs.domains
      = ["algorithms", "system_design"] ∧
    (runConversation scenarioQueries initialState).user_inputs.skill_level
      = some "intermediate" ∧
    (runConversation scenarioQueries initialState).user_inputs.preference
      = some "balanced" ∧
    (runConversation (scenarioQueries.take 3) initialState).awaiting_processing_confirmation
      = false ∧
    (runConversation scenarioQueries initialState).awaiting_processing_confirmation
      = true := by
  decide

/-- Claim C6, counterexample: The utterance `"all\nalgorithms"` contains the
standalone word `all` (at word boundaries), yet domain parsing does not
yield the full fixed domain set: `_parse_domains` only inspects the last
non-empty line, so it returns `["algorithms"]`, both at the parser and
through a DOMAIN_SELECTION turn.  This refutes the claim as stated. -/
theorem c6_counterexample :
    hasWordAll (pyLower "all\nalgorithms") = true ∧
    parseDomains "all\nalgorithms" ≠ allDomains ∧
    parseDomains "all\nalgorithms" = ["algorithms"] ∧
    (streamNext "all\nalgorithms"
        { phase := .domainSelection }).user_inputs.domains = ["algorithms"] := by
  decide

/-- Claim C6, amended: In phase DOMAIN_SELECTION, for every utterance whose
last non-empty line contains the standalone word `all` (case-insensitive,
at word boundaries), domain parsing yields the full fixed set of seven
domains, regardless of any other text present on that line or on earlier
lines. -/
theorem c6_all_on_last_line_yields_all_domains (q : String)
    (h : hasWordAll (pyLower (lastUserLine q)) = true) :
    parseDomains q = allDomains := by
  simp [parseDomains, parseDomainsLine, h]

theorem c6_witness :
    hasWordAll (pyLower (lastUserLine "my pick:\ngive me ALL of it, thanks")) = true ∧
    parseDomains "my pick:\ngive me ALL of it, thanks" = allDomains :=
  ⟨by decide,
   c6_all_on_last_line_yields_all_domains "my pick:\ngive me ALL of it, thanks" (by decide)⟩

/-- Claim C10: The domain, skill-level and preference parsers depend only on
the last non-empty line of the utterance: two utterances with the same
last non-empty line parse to the same results, so keywords appearing only
on earlier lines are ignored. -/
theorem c10_parsers_depend_on_last_line (q1 q2 : String)
    (h : lastUserLine q1 = lastUserLine q2) :
    parseDomains q1 = parseDomains q2 ∧
    parseSkillLevel q1 = parseSkillLevel q2 ∧
    parsePreference q1 = parsePreference q2 := by
  unfold parseDomains parseSkillLevel parsePreference
  rw [h]
  exact ⟨rfl, rfl, rfl⟩

theorem c10_witness :
    lastUserLine "algorithms databases expert theory\nbalanced"
      = lastUserLine "balanced" ∧
    (parseDomains "algorithms databases expert theory\nbalanced"
       = parseDomains "balanced" ∧
     parseSkillLevel "algorithms databases expert theory\nbalanced"
       = parseSkillLevel "balanced" ∧
     parsePreference "algorithms databases expert theory\nbalanced"
       = parsePreference "balanced") :=
  ⟨by decide,
   c10_parsers_depend_on_last_line "algorithms databases expert theory\nbalanced"
     "balanced" (by decide)⟩

/-- Claim C3: In phase READY_TO_PROCESS: an utterance that does not match
the fixed confirmation vocabulary never raises `trigger_async_processing`
and re-prompts for confirmation (`require_user_input = true`); an
utterance that matches it raises `trigger_async_processing = true`; in
both cases the stored phase remains READY_TO_PROCESS after the turn. -/
theorem c3_ready_to_process_confirmation_gate (q : String) (s : ConversationState)
    (h : s.phase = .readyToProcess) :
    (streamNext q s).phase = .readyToProcess ∧
    (anyKeyword confirmKeywords q = false →
      (streamOutcome q s).map TurnOutcome.trigger_async_processing = some false ∧
      (streamOutcome q s).map TurnOutcome.require_user_input = some true ∧
      (streamOutcome q s).map TurnOutcome.content = some confirmRepromptText) ∧
    (anyKeyword confirmKeywords q = true →
      (streamOutcome q s).map TurnOutcome.trigger_async_processing = some true) := by
  have h0 : (s.add_message "user" q).phase = ConversationPhase.readyToProcess := h
  unfold streamNext streamOutcome streamStep
  simp only []
  rw [h0]
  by_cases hc : anyKeyword confirmKeywords q <;>
    simp [handleReadyToProcess, hc, h]

theorem c3_witness :
    (({ phase := .readyToProcess } : ConversationState)).phase = .readyToProcess ∧
    ((streamNext "no wait" { phase := .readyToProcess }).phase = .readyToProcess ∧
      (anyKeyword confirmKeywords "no wait" = false →
        (streamOutcome "no wait" { phase := .readyToProcess }).map
          TurnOutcome.trigger_async_processing = some false ∧
        (streamOutcome "no wait" { phase := .readyToProcess }).map
          TurnOutcome.require_user_input = some true ∧
        (streamOutcome "no wait" { phase := .readyToProcess }).map
          TurnOutcome.content = some confirmRepromptText) ∧
      (anyKeyword confirmKeywords "no wait" = true →
        (streamOutcome "no wait" { phase := .readyToProcess }).map
          TurnOutcome.trigger_async_processing = some true)) :=
  ⟨rfl, c3_ready_to_process_confirmation_gate "no wait" { phase := .readyToProcess } rfl⟩

/-- Claim C8, counterexample: A turn processed in phase COMPLETED does mutate
the ConversationState: `stream` appends the user utterance to
`messages_history` before dispatching (agent line 150), so the state is
not left unchanged.  This refutes the "no state mutation (including
history)" part of the claim at the concrete utterance `"hello again"`. -/
theorem c8_counterexample :
    streamNext "hello again" { phase := .completed }
      ≠ ({ phase := .completed } : ConversationState) ∧
    (streamNext "hello again" { phase := .completed }).messages_history
      = [⟨"user", "hello again", .completed⟩] := by
  decide

/-- Claim C8, amended: In phase COMPLETED every turn reports
`taskComplete = true` with the same fixed closing message, and phase and
all collected inputs are untouched; the only state mutation performed by
a turn is appending the user's utterance to the message history. -/
theorem c8_completed_idempotent_up_to_history (q : String) (s : ConversationState)
    (h : s.phase = .completed) :
    streamOutcome q s = some { is_task_complete := true, require_user_input := false,
                               content := completedText, phase := .completed } ∧
    streamNext q s
      = { s with messages_history := s.messages_history ++ [⟨"user", q, .completed⟩] } := by
  have h0 : (s.add_message "user" q).phase = ConversationPhase.completed := h
  unfold streamNext streamOutcome streamStep
  simp only []
  rw [h0]
  refine ⟨rfl, ?_⟩
  simp [ConversationState.add_message, handleCompletedPhase, h]

/-- Claim C4: In every reachable state whose phase is not ASYNC_PROCESSING,
REFINEMENT_PROCESSING or COMPLETED, an utterance whose parse fails (no
vocabulary match for that phase) leaves phase and `collectedInputs`
(domains, skill level, preference, companies, extra requirements)
unchanged and returns a turn outcome with `requireUserInput = true`. -/
theorem c4_parse_miss_recovers_locally (q : String) (s : ConversationState)
    (hr : Reaches s)
    (h1 : s.phase ≠ .asyncProcessing)
    (h2 : s.phase ≠ .refinementProcessing)
    (h3 : s.phase ≠ .completed)
    (hf : parseFails s.phase q = true) :
    (streamNext q s).phase = s.phase ∧
    (streamNext q s).user_inputs = s.user_inputs ∧
    (streamOutcome q s).map TurnOutcome.require_user_input = some true := by
  obtain ⟨hpc, -, -⟩ := reaches_phaseInv hr
  have h0 : (s.add_message "user" q).phase = s.phase := rfl
  unfold streamNext streamOutcome streamStep
  simp only []
  rw [h0]
  cases hp : s.phase
  case processingConfirmation => exact absurd hp hpc
  case asyncProcessing => exact absurd hp h1
  case refinementProcessing => exact absurd hp h2
  case completed => exact absurd hp h3
  case refinementInput => rw [hp] at hf; simp [parseFails] at hf
  case initial =>
    rw [hp] at hf
    simp only [parseFails, Bool.not_eq_true'] at hf
    simp [handleInitialPhase, hf, hp]
  case domainSelection =>
    rw [hp] at hf
    simp only [parseFails] at hf
    simp [handleDomainSelection, hf, hp]
  case levelAssessment =>
    rw [hp] at hf
    simp only [parseFails, Option.isNone_iff_eq_none] at hf
    simp [handleLevelAssessment, hf, hp]
  case preferenceGathering =>
    rw [hp] at hf
    simp only [parseFails, Option.isNone_iff_eq_none] at hf
    simp [handlePreferenceGathering, hf, hp]
  case readyToProcess =>
    rw [hp] at hf
    simp only [parseFails, Bool.not_eq_true'] at hf
    simp [handleReadyToProcess, hf, hp]
  case planDelivered =>
    rw [hp] at hf
    simp only [parseFails, Bool.and_eq_true, Bool.not_eq_true'] at hf
    simp [handlePlanDelivered, hf.1, hf.2, hp]

theorem c4_witness :
    (streamNext "zzz" initialState).phase = initialState.phase ∧
    (streamNext "zzz" initialState).user_inputs = initialState.user_inputs ∧
    (streamOutcome "zzz" initialState).map TurnOutcome.require_user_input = some true :=
  c4_parse_miss_recovers_locally "zzz" initialState Reaches.init
    (by decide) (by decide) (by decide) (by decide)

/-- Claim C9: In every reachable state in phase PREFERENCE_GATHERING,
domains are non-empty and the skill level is set; consequently, after
any successful preference parse, input completeness holds and the
"I still need some more information" branch of
`_handle_preference_gathering` is not taken: the turn advances to
READY_TO_PROCESS (both in the outcome and in the stored state). -/
theorem c9_preference_gathering_inputs_complete (q : String) (s : ConversationState)
    (hr : Reaches s)
    (hph : s.phase = .preferenceGathering)
    (hq : (parsePreference q).isSome = true) :
    s.user_inputs.domains ≠ [] ∧
    s.user_inputs.skill_level.isSome = true ∧
    (streamOutcome q s).map TurnOutcome.phase = some .readyToProcess ∧
    (streamNext q s).phase = .readyToProcess ∧
    (streamNext q s).is_input_complete = true := by
  obtain ⟨-, -, hpg⟩ := reaches_phaseInv hr
  obtain ⟨hdom, hskill⟩ := hpg hph
  obtain ⟨p, hp⟩ := Option.isSome_iff_exists.mp hq
  have hlen : 0 < s.user_inputs.domains.length := List.length_pos.mpr hdom
  have h0 : (s.add_message "user" q).phase = s.phase := rfl
  refine ⟨hdom, hskill, ?_⟩
  unfold streamNext streamOutcome streamStep
  simp only []
  rw [h0, hph]
  simp [handlePreferenceGathering, hp, ConversationState.is_input_complete,
    ConversationState.add_message, hlen, hskill]

theorem c9_witness :
    (runConversation (scenarioQueries.take 3) initialState).user_inputs.domains ≠ [] ∧
    (runConversation (scenarioQueries.take 3) initialState).user_inputs.skill_level.isSome
      = true ∧
    (streamOutcome "balanced"
        (runConversation (scenarioQueries.take 3) initialState)).map TurnOutcome.phase
      = some .readyToProcess ∧
    (streamNext "balanced"
        (runConversation (scenarioQueries.take 3) initialState)).phase
      = .readyToProcess ∧
    (streamNext "balanced"
        (runConversation (scenarioQueries.take 3) initialState)).is_input_complete
      = true :=
  c9_preference_gathering_inputs_complete "balanced"
    (runConversation (scenarioQueries.take 3) initialState)
    (Reaches.turn "intermediate"
      (Reaches.turn "algorithms and system design"
        (Reaches.turn "I want to prepare for interviews" Reaches.init)))
    (by decide) (by decide)

/-! ## Claim theorems: orchestrator, webhook handler, async worker -/

/-- Claim C1, code-bug evaluation: In READY_TO_PROCESS (reached by the
standard collection scenario), the affirmative utterance
`"Yes, create my plan"` with *no* CallbackConfig supplied makes the
executor answer with exactly one event: a *final* `submitted` status
acknowledgment.  No plan artifact is produced, no plan is stored and the
phase never advances — the inline synchronous fallback the spec mandates
(`_generate_preparation_plan`) is dead code, so the request is
acknowledged and then dropped. -/
theorem c1_no_callback_submitted_without_plan :
    (executeModel none true "" "Yes, create my plan"
        (runConversation scenarioQueries initialState)).1
      = .standard [.status .submitted submittedAckText true] ∧
    (executeModel none true "" "Yes, create my plan"
        (runConversation scenarioQueries initialState)).2.plan_content = none ∧
    (executeModel none true "" "Yes, create my plan"
        (runConversation scenarioQueries initialState)).2.plan_generated = false ∧
    (executeModel none true "" "Yes, create my plan"
        (runConversation scenarioQueries initialState)).2.phase = .readyToProcess := by
  decide

/-- Auxiliary: a Boolean-level list prefix decomposes its superlist. -/
theorem isPrefixOf_drop_append :
    ∀ (p l : List Char), p.isPrefixOf l = true → l = p ++ l.drop p.length := by
  intro p
  induction p with
  | nil => intro l _; simp
  | cons a p ih =>
    intro l h
    cases l with
    | nil => simp [List.isPrefixOf] at h
    | cons b l2 =>
      simp only [List.isPrefixOf, Bool.and_eq_true, beq_iff_eq] at h
      obtain ⟨rfl, h2⟩ := h
      simpa using ih l2 h2

/-- Auxiliary: a successful `splitFirstAt` decomposes its input. -/
theorem splitFirstAt_eq {sep : List Char} :
    ∀ {l pre post : List Char}, splitFirstAt sep l = some (pre, post) →
      l = pre ++ sep ++ post := by
  intro l
  induction l with
  | nil => intro pre post h; simp [splitFirstAt] at h
  | cons c rest ih =>
    intro pre post h
    by_cases hp : sep.isPrefixOf (c :: rest)
    · rw [splitFirstAt, if_pos hp] at h
      have ht := isPrefixOf_drop_append sep (c :: rest) hp
      obtain ⟨rfl, rfl⟩ : pre = [] ∧ post = (c :: rest).drop sep.length := by
        simpa [eq_comm] using h
      simpa using ht
    · rw [splitFirstAt, if_neg hp] at h
      cases hs : splitFirstAt sep rest with
      | none => rw [hs] at h; simp at h
      | some pr =>
        rw [hs] at h
        obtain ⟨h1, h2⟩ : c :: pr.1 = pre ∧ pr.2 = post := by simpa using h
        subst h1; subst h2
        simpa using congrArg (c :: ·) (ih hs)

/-- Auxiliary: a URL that begins with the literal placeholder prefix
`BASE_API_URL/` has no http(s) scheme, so `_validate_callback_url`
rejects it. -/
theorem validate_false_of_placeholder_lead {url : String}
    (hpre : "BASE_API_URL/".toList.isPrefixOf url.toList = true) :
    validateCallbackUrl url = false := by
  cases hsp : splitFirstAt "://".toList url.toList with
  | none =>
    have hsp' : splitFirstAt [':', '/', '/'] url.data = none := hsp
    simp [validateCallbackUrl, hsp']
  | some pr =>
    have hsp' : splitFirstAt [':', '/', '/'] url.data = some pr := hsp
    have heq : url.toList = pr.1 ++ "://".toList ++ pr.2 := splitFirstAt_eq hsp
    have ht := isPrefixOf_drop_append "BASE_API_URL/".toList url.toList hpre
    have hlen : 13 ≤ pr.1.length := by
      by_contra hlt
      push_neg at hlt
      have h1 : url.toList.get? pr.1.length = some ':' := by
        rw [heq, List.append_assoc, List.get?_append_right (le_refl _)]
        simp
      have h2 : url.toList.get? pr.1.length
          = "BASE_API_URL/".toList.get? pr.1.length := by
        rw [ht, List.get?_append (by simpa using hlt)]
      have h3 : ':' ∈ "BASE_API_URL/".toList :=
        List.get?_mem (h2 ▸ h1)
      exact absurd h3 (by decide)
    have hmap : (pyLower (String.mk pr.1)).toList.length = pr.1.length := by
      simp [pyLower]
    have hs1 : pyLower (String.mk pr.1) ≠ "http" := by
      intro hcontra
      have hl := congrArg (fun s => s.toList.length) hcontra
      simp only [hmap] at hl
      have h4 : ("http" : String).toList.length = 4 := rfl
      omega
    have hs2 : pyLower (String.mk pr.1) ≠ "https" := by
      intro hcontra
      have hl := congrArg (fun s => s.toList.length) hcontra
      simp only [hmap] at hl
      have h5 : ("https" : String).toList.length = 5 := rfl
      omega
    simp [validateCallbackUrl, hsp', hs1, hs2]

/-- Claim C2, counterexample: A CallbackConfig URL that *contains* the
`BASE_API_URL` placeholder after a well-formed scheme and host, with no
base address configured, is dialed with the placeholder unresolved:
delivery is *not* aborted before the POST.  This refutes the claim, as
stated over every URL containing the placeholder. -/
theorem c2_counterexample :
    containsSubstr "https://example.com/BASE_API_URL/hook" "BASE_API_URL/" = true ∧
    containsSubstr "https://example.com/BASE_API_URL/hook" "BASE_API_URL" = true ∧
    handlePushNotificationRequest true none "https://example.com/BASE_API_URL/hook"
      = .dialed "https://example.com/BASE_API_URL/hook" := by
  decide

/-- Claim C2, amended: For every CallbackConfig URL containing the
`BASE_API_URL/` placeholder pattern: when no base address is configured
the URL is left unchanged (a warning is logged, the worker does not
crash) and delivery proceeds iff that unresolved URL itself passes the
generic http(s)-scheme/host validation — in particular a URL beginning
with the placeholder (the spec's path-prefix convention) has no scheme
and is always rejected before any POST; when a base address is
configured, every occurrence of the placeholder is substituted with the
base address (trailing slashes stripped) before use. -/
theorem c2_placeholder_resolution (url : String)
    (h : containsSubstr url "BASE_API_URL/" = true) :
    resolveCallbackUrl none url = url ∧
    (handlePushNotificationRequest true none url = .dialed url
      ↔ validateCallbackUrl url = true) ∧
    ("BASE_API_URL/".toList.isPrefixOf url.toList = true →
      handlePushNotificationRequest true none url = .rejectedInvalidUrl url) ∧
    ∀ b, resolveCallbackUrl (some b) url
        = pyReplace url "BASE_API_URL" (rstripSlashes b) := by
  have hne : url ≠ "" := by
    intro hurl
    rw [hurl] at h
    exact absurd h (by decide)
  have hres : resolveCallbackUrl none url = url := by
    simp [resolveCallbackUrl, h]
  refine ⟨hres, ?_, ?_, ?_⟩
  · by_cases hv : validateCallbackUrl url <;>
      simp [handlePushNotificationRequest, hne, hres, hv]
  · intro hpre
    have hv := validate_false_of_placeholder_lead hpre
    simp [handlePushNotificationRequest, hne, hres, hv]
  · intro b
    simp [resolveCallbackUrl, h]

theorem c2_witness :
    containsSubstr "BASE_API_URL/webhook" "BASE_API_URL/" = true ∧
    (resolveCallbackUrl none "BASE_API_URL/webhook" = "BASE_API_URL/webhook" ∧
      (handlePushNotificationRequest true none "BASE_API_URL/webhook"
          = .dialed "BASE_API_URL/webhook"
        ↔ validateCallbackUrl "BASE_API_URL/webhook" = true) ∧
      ("BASE_API_URL/".toList.isPrefixOf "BASE_API_URL/webhook".toList = true →
        handlePushNotificationRequest true none "BASE_API_URL/webhook"
          = .rejectedInvalidUrl "BASE_API_URL/webhook") ∧
      ∀ b, resolveCallbackUrl (some b) "BASE_API_URL/webhook"
          = pyReplace "BASE_API_URL/webhook" "BASE_API_URL" (rstripSlashes b)) :=
  ⟨by decide, c2_placeholder_resolution "BASE_API_URL/webhook" (by decide)⟩

/-- Claim C5: Every `_async_research_and_generate` run — for every plan
text, error message and fault position, including an unhandled fault at
any stage — emits `progress*, terminal(1)`: every event before the last
has `complete = false` and `requireInput = false`, the run is non-empty,
its last event is terminal (`complete = true` or `requireInput = true`),
and that terminal event is the only such event of the run. -/
theorem c5_worker_progress_then_single_terminal
    (planContent errMsg : String) (fault : Option (Fin 4)) :
    asyncResearchAndGenerate planContent errMsg fault ≠ [] ∧
    (∀ e ∈ (asyncResearchAndGenerate planContent errMsg fault).dropLast,
       e.is_task_complete = false ∧ e.require_user_input = false) ∧
    ((asyncResearchAndGenerate planContent errMsg fault).getLast?.map
        WorkerEvent.isTerminal) = some true ∧
    ((asyncResearchAndGenerate planContent errMsg fault).filter
        WorkerEvent.isTerminal).length = 1 := by
  cases fault with
  | none =>
      simp [asyncResearchAndGenerate, workerProgressContents, WorkerEvent.isTerminal,
        List.filter]
  | some k =>
      fin_cases k <;>
        simp [asyncResearchAndGenerate, workerProgressContents, WorkerEvent.isTerminal,
          List.filter]

theorem c8_witness :
    streamOutcome "thanks once more" ({ phase := .completed } : ConversationState)
      = some { is_task_complete := true, require_user_input := false,
               content := completedText, phase := .completed } ∧
    streamNext "thanks once more" ({ phase := .completed } : ConversationState)
      = { ({ phase := .completed } : ConversationState) with
            messages_history := [⟨"user", "thanks once more", .completed⟩] } :=
  c8_completed_idempotent_up_to_history "thanks once more" { phase := .completed } rfl

end InterviewPrep
